import Mathlib

/-!
# Registration form: answers, validation, visibility, load and submit

A shallow embedding of the registration page component
(`webapp/src/pages/registration/components/RegistrationComponent.js`).

* The component's `this.state` is the record `State`; every handler is a
  function from the state before to the state after (React merges the
  objects passed to `setState`, which is a record update here).
* The remote collaborators (`getOffer`, `getRegistrationForm`,
  `getRegistrationResponse`, `submitResponse`) are not part of the
  component: what they answer is an input of the handler that consumes it,
  and a request the component sends is an output.
* JavaScript truthiness is made explicit: `null`/`undefined` is `none`, the
  empty string and the number `0` are falsy.
* `String.prototype.match` is a parameter `regexMatch value pattern`.
-/

namespace Registration

/-! ## Data model -/

/-- Question of a section, restricted to the fields the handlers read
(`type`, `headline`, `description`, `placeholder` and `options` only pick and
decorate the control that is drawn). -/
structure Question where
  id : Int
  order : Int
  is_required : Bool
  validation_regex : Option String
  validation_text : Option String
  depends_on_question_id : Option Int
  hide_for_dependent_value : Option String
deriving DecidableEq, Repr

/-- Section of the form with its questions. -/
structure Section where
  id : Int
  order : Int
  registration_questions : List Question
deriving DecidableEq, Repr

/-- Answer to one question. -/
structure Answer where
  registration_question_id : Int
  value : String
deriving DecidableEq, Repr

/-- Outcome of validating one question. -/
structure ValidationResult where
  registration_question_id : Int
  error : String
deriving DecidableEq, Repr

/-- Offer returned by `getOffer`. -/
structure Offer where
  id : Int
deriving DecidableEq, Repr

/-- Component state (`this.state`). `registrationId` and `registrationFormId`
start as `false` and `offer` as `[]`, whose `id` is `undefined`: all three
are `none` then. `validationErrors` is absent until the first validation. -/
structure State where
  isLoading : Bool
  error : String
  hasValidated : Bool
  isValid : Bool
  validationStale : Bool
  isSubmitting : Bool
  offer : Option Offer
  questionSections : List Section
  uploadPercentComplete : Nat
  answers : List Answer
  registrationId : Option Int
  registrationFormId : Option Int
  formSuccess : Bool
  formFailure : Bool
  validationErrors : Option (List ValidationResult)
deriving DecidableEq, Repr

/-- State set up by the constructor. -/
def initialState : State where
  isLoading := true
  error := ""
  hasValidated := false
  isValid := false
  validationStale := false
  isSubmitting := false
  offer := none
  questionSections := []
  uploadPercentComplete := 0
  answers := []
  registrationId := none
  registrationFormId := none
  formSuccess := false
  formFailure := false
  validationErrors := none

/-! ## JavaScript primitives -/

/-- Truthiness of an optional integer: `null`, `undefined`, `false` and `0`
are falsy. -/
def truthyInt : Option Int → Bool
  | none => false
  | some n => n != 0

/-- The expression `text || fallback` on an optional string. -/
def orElseString (text : Option String) (fallback : String) : String :=
  match text with
  | some s => if s != "" then s else fallback
  | none => fallback

/-- `Array.prototype.join`: `null` and `undefined` entries print as the empty
string. -/
def jsJoin (sep : String) : List (Option String) → String
  | [] => ""
  | [x] => x.getD ""
  | x :: y :: rest => x.getD "" ++ sep ++ jsJoin sep (y :: rest)

/-- `Array.prototype.sort((a, b) => key(a) - key(b))` on integer keys. The
language fixes the result, not the algorithm: the sort is stable and the
comparator is a consistent total preorder, so the result is the one stable
ascending arrangement; it is computed here by a stable insertion sort. -/
def sortByKey {α : Type} (key : α → Int) (l : List α) : List α :=
  l.insertionSort (fun a b => key a ≤ key b)

/-- Value handed to `onChange`: the string of a text control or dropdown, or
the number `checked | 0` of a checkbox. -/
inductive InputValue where
  | str (s : String)
  | num (n : Int)
deriving DecidableEq, Repr

/-- `value.toString()`. -/
def jsToString : InputValue → String
  | .str s => s
  | .num n => toString n

/-! ## Answer lookup and visibility -/

/-- `answers.find(a => a.registration_question_id === id)`. -/
def findAnswer (answers : List Answer) (id : Int) : Option Answer :=
  answers.find? (fun a => a.registration_question_id == id)

/-- Callback of the `.filter(...)` in `render`: decides whether a question is
drawn. The guard `if (question.depends_on_question_id)` is a truthiness test,
passed by a number other than `0`. -/
def isVisible (answers : List Answer) (question : Question) : Bool :=
  match question.depends_on_question_id with
  | some dep =>
    if dep != 0 then
      match findAnswer answers dep with
      | some answer => some answer.value != question.hide_for_dependent_value
      | none => false
    else true
  | none => true

/-- Questions of a section as `render` lists them: sorted by `order`, then
filtered by visibility. (The source sorts the stored array in place; the
stored order only fixes the order of `validationErrors`, which no statement
below depends on.) -/
def visibleQuestions (answers : List Answer) (s : Section) : List Question :=
  (sortByKey Question.order s.registration_questions).filter (isVisible answers)

/-! ## Validation -/

/-- `validate(question, answer)`. -/
def validate (regexMatch : String → String → Bool) (question : Question)
    (answer : Option Answer) : ValidationResult :=
  let errors : List (Option String) := []
  let errors :=
    if question.is_required &&
        (match answer with
          | none => true
          | some a => a.value == "") then
      errors ++ [some (orElseString question.validation_text "An answer is required.")]
    else errors
  let errors :=
    if (match answer, question.validation_regex with
          | some a, some pattern => pattern != "" && !regexMatch a.value pattern
          | _, _ => false) then
      errors ++ [question.validation_text]
    else errors
  { registration_question_id := question.id, error := jsJoin "; " errors }

/-- The list `validationErrors` computed by `isValidated`. -/
def validationErrorsOf (regexMatch : String → String → Bool) (s : State) :
    List ValidationResult :=
  s.questionSections.flatMap fun sec =>
    sec.registration_questions.map fun question =>
      validate regexMatch question (findAnswer s.answers question.id)

/-- `isValidated()`: the state after, and the returned `isValid`. -/
def isValidated (regexMatch : String → String → Bool) (s : State) : State × Bool :=
  let validationErrors := validationErrorsOf regexMatch s
  let isValid := !validationErrors.any (fun v => v.error != "")
  ({ s with
      validationErrors := some validationErrors
      validationStale := false
      isValid := isValid }, isValid)

/-! ## Answer store -/

/-- The answer list `onChange(id, value)` stores. `parseInt(id)` is `id` on an
integer. -/
def upsertAnswer (answers : List Answer) (id : Int) (value : InputValue) : List Answer :=
  match findAnswer answers id with
  | some answer =>
    let answer := { answer with value := jsToString value }
    answers.map fun item => if item.registration_question_id == id then answer else item
  | none =>
    answers ++ [{ registration_question_id := id, value := jsToString value }]

/-- `onChange(id, value)`, with the callback that revalidates once validation
has run. -/
def onChange (regexMatch : String → String → Bool) (s : State) (id : Int)
    (value : InputValue) : State :=
  let s := { s with answers := upsertAnswer s.answers id value }
  if s.hasValidated then (isValidated regexMatch s).1 else s

/-! ## Submission -/

/-- Payload built by `buttonSubmit`. -/
structure SubmitData where
  registration_id : Option Int
  offer_id : Option Int
  registration_form_id : Option Int
  answers : List Answer
deriving DecidableEq, Repr

/-- One call `registrationService.submitResponse(data, isUpdate)`. -/
structure SubmitRequest where
  data : SubmitData
  isUpdate : Bool
deriving DecidableEq, Repr

/-- `buttonSubmit(e)`: the state once the handler and its `setState` callback
have run, and the request sent to `submitResponse`, if any. -/
def buttonSubmit (regexMatch : String → String → Bool) (s : State) :
    State × Option SubmitRequest :=
  let data : SubmitData :=
    { registration_id := s.registrationId
      offer_id := s.offer.map Offer.id
      registration_form_id := s.registrationFormId
      answers := s.answers }
  let s := { s with hasValidated := true }
  let validated := isValidated regexMatch s
  if validated.2 then
    let s := { validated.1 with isSubmitting := true }
    (s, some { data := data, isUpdate := truthyInt s.registrationId })
  else
    (validated.1, none)

/-- How a promise of a collaborator settles. -/
inductive Settled (α : Type) where
  | resolved (result : α)
  | rejected
deriving DecidableEq, Repr

/-- The `form` object of the answer of `submitResponse`. -/
structure SubmitForm where
  status : Option Int
deriving DecidableEq, Repr

/-- Answer of `submitResponse`. -/
structure SubmitResponse where
  error : String
  form : Option SubmitForm
deriving DecidableEq, Repr

/-- State written by the `.catch` handler of the submit call. -/
def submitCaught (s : State) : State :=
  { s with formFailure := true, formSuccess := false, isSubmitting := false }

/-- The `.then(...).catch(...)` chain on the submit call. Reading
`response.form.status` of an answer without `form` throws inside `.then`,
which `.catch` handles. -/
def submitSettled (s : State) (outcome : Settled SubmitResponse) : State :=
  match outcome with
  | .resolved response =>
    if response.error == "" then
      match response.form with
      | some form =>
        if form.status == some 201 || form.status == some 200 then
          { s with formFailure := false, formSuccess := true, isSubmitting := false }
        else
          { s with formFailure := true, formSuccess := false, isSubmitting := false,
                   error := response.error }
      | none => submitCaught s
    else
      { s with formFailure := true, formSuccess := false, isSubmitting := false,
               error := response.error }
  | .rejected => submitCaught s

/-! ## Loading -/

/-- Answer of `getOffer`; `offer` is `none` for `null`. -/
structure OfferResult where
  error : String
  offer : Option Offer
deriving DecidableEq, Repr

/-- The `form` object of the answer of `getRegistrationForm`. -/
structure RegistrationForm where
  id : Int
  registration_sections : List Section
deriving DecidableEq, Repr

/-- Answer of `getRegistrationForm`. -/
structure FormResult where
  error : String
  form : Option RegistrationForm
  statusCode : Option Int
deriving DecidableEq, Repr

/-- The `form` object of the answer of `getRegistrationResponse`. -/
structure ResponseForm where
  answers : List Answer
  registration_id : Option Int
deriving DecidableEq, Repr

/-- Answer of `getRegistrationResponse`. -/
structure ResponseResult where
  error : String
  form : Option ResponseForm
deriving DecidableEq, Repr

/-- The `.then(...).catch(error => { })` chain on `getRegistrationResponse()`. -/
def responseSettled (s : State) (outcome : Settled ResponseResult) : State :=
  match outcome with
  | .resolved result =>
    if result.error == "" then
      match result.form with
      | some form =>
        { s with isLoading := false, answers := form.answers,
                 registrationId := form.registration_id }
      | none => s
    else
      { s with isLoading := false }
  | .rejected => s

/-- The `.then(...)` handler on `getRegistrationForm(...)`: the state after,
and whether `history.push("/offer")` was called. The promise has no `.catch`:
a rejection, or a throw while reading `result.form`, leaves the state alone. -/
def formSettled (s : State) (outcome : Settled FormResult)
    (response : Settled ResponseResult) : State × Bool :=
  match outcome with
  | .resolved result =>
    if result.error == "" then
      match result.form with
      | some form =>
        if form.registration_sections.length > 0 then
          let questionSections :=
            form.registration_sections.filter fun sec => sec.registration_questions.length > 0
          let s :=
            { s with
                questionSections := sortByKey Section.order questionSections
                registrationFormId := some form.id }
          (responseSettled s response, false)
        else
          (s, result.statusCode == some 409)
      | none => (s, false)
    else
      (s, result.statusCode == some 409)
  | .rejected => (s, false)

/-- `componentDidMount()` run to the end against the three collaborators,
each given by how its promise settles: the state after, and whether the page
was redirected to `/offer`. -/
def componentDidMount (s : State) (offer : Settled OfferResult)
    (form : Settled FormResult) (response : Settled ResponseResult) : State × Bool :=
  let s := { s with isLoading := true }
  match offer with
  | .resolved result =>
    match result.offer with
    | some o =>
      if result.error == "" then
        formSettled { s with offer := some o, error := result.error } form response
      else
        ({ s with isLoading := false, error := result.error }, false)
    | none => ({ s with isLoading := false, error := result.error }, false)
  | .rejected => (s, false)

/-- `resetPage()`. -/
def resetPage (s : State) (offer : Settled OfferResult)
    (form : Settled FormResult) (response : Settled ResponseResult) : State × Bool :=
  let loaded := componentDidMount s offer form response
  ({ loaded.1 with formSuccess := false }, loaded.2)

/-! ## Rendering -/

/-- What `render` draws below the banners. -/
inductive PageBody where
  | form (sections : List (Section × List Question)) (validationBanner : Bool)
  | noFormAvailable
  | nothing
deriving DecidableEq, Repr

/-- What `render` returns, without the markup. -/
inductive View where
  | loading
  | errorBanner (message : String)
  | page (successCard failureBanner alreadyRegistered : Bool) (body : PageBody)
deriving DecidableEq, Repr

/-- `render()`. -/
def render (s : State) : View :=
  if s.isLoading then .loading
  else if s.error != "" then .errorBanner s.error
  else
    .page s.formSuccess s.formFailure (truthyInt s.registrationId && !s.formSuccess)
      (if s.questionSections.length > 0 && !s.formSuccess then
        .form (s.questionSections.map fun sec => (sec, visibleQuestions s.answers sec))
          (s.hasValidated && !s.validationStale && !s.isValid)
      else if !s.formSuccess && !s.formFailure then .noFormAvailable
      else .nothing)

/-! ## Examples used below -/

/-- Matcher for the examples: it knows the one pattern `^[0-9]+$` (a non-empty
run of digits) and lets every other pattern match. -/
def digitsMatch (value pattern : String) : Bool :=
  if pattern == "^[0-9]+$" then value != "" && value.data.all Char.isDigit else true

/-- First question of the visa example, answered by "yes" or "no". -/
def travelQuestion : Question :=
  { id := 1, order := 1, is_required := true, validation_regex := none,
    validation_text := none, depends_on_question_id := none,
    hide_for_dependent_value := none }

/-- Question shown unless question `1` was answered "no"; it is required. -/
def visaQuestion : Question :=
  { id := 2, order := 2, is_required := true, validation_regex := none,
    validation_text := none, depends_on_question_id := some 1,
    hide_for_dependent_value := some "no" }

/-- Question with a pattern and no message, not required. -/
def phoneQuestion : Question :=
  { id := 3, order := 1, is_required := false, validation_regex := some "^[0-9]+$",
    validation_text := none, depends_on_question_id := none,
    hide_for_dependent_value := none }

/-- Question that names question `0` as the one it depends on. -/
def zeroDependent : Question :=
  { id := 4, order := 1, is_required := false, validation_regex := none,
    validation_text := none, depends_on_question_id := some 0,
    hide_for_dependent_value := some "no" }

/-- Loaded form in which `visaQuestion` is hidden by the answer "no". -/
def visaState : State :=
  { initialState with
      isLoading := false
      questionSections :=
        [{ id := 1, order := 1, registration_questions := [travelQuestion, visaQuestion] }]
      answers := [{ registration_question_id := 1, value := "no" }] }

/-- Loaded form with `phoneQuestion` answered "abc". -/
def phoneState : State :=
  { initialState with
      isLoading := false
      questionSections := [{ id := 1, order := 1, registration_questions := [phoneQuestion] }]
      answers := [{ registration_question_id := 3, value := "abc" }] }

/-- Loaded form whose one required question has no answer. -/
def unansweredState : State :=
  { initialState with
      isLoading := false
      questionSections := [{ id := 1, order := 1, registration_questions := [travelQuestion] }] }

/-- Loaded form that passes validation, with the registration id `0`. -/
def zeroIdState : State :=
  { initialState with
      isLoading := false
      offer := some { id := 5 }
      registrationFormId := some 9
      registrationId := some 0
      questionSections := [{ id := 1, order := 1, registration_questions := [travelQuestion] }]
      answers := [{ registration_question_id := 1, value := "x" }] }

/-- Form answer with four sections: one of order 2, one without questions,
and two of order 1. -/
def sampleForm : RegistrationForm :=
  { id := 9
    registration_sections :=
      [{ id := 10, order := 2, registration_questions := [travelQuestion] },
       { id := 11, order := 1, registration_questions := [] },
       { id := 12, order := 1, registration_questions := [visaQuestion] },
       { id := 13, order := 1, registration_questions := [phoneQuestion] }] }

/-! # Theorems -/

/-! ## Validation of one question -/

theorem orElseString_ne_empty (text : Option String) (fallback : String)
    (h : fallback ≠ "") : orElseString text fallback ≠ "" := by
  unfold orElseString
  split
  · split
    · rename_i s hs
      exact bne_iff_ne.mp hs
    · exact h
  · exact h

theorem append_ne_empty (a b : String) (h : a ≠ "") : a ++ b ≠ "" := by
  intro hab
  apply h
  have hlen : (a ++ b).length = 0 := by rw [hab]; rfl
  rw [String.length_append] at hlen
  have ha : a.length = 0 := by omega
  cases a with
  | mk data =>
    have hdata : data = [] := List.length_eq_zero.mp ha
    subst hdata
    rfl

/-- A required question whose answer is absent or empty gets a non-empty
error. -/
theorem validate_error_of_required_missing (regexMatch : String → String → Bool)
    (question : Question) (answer : Option Answer)
    (hreq : question.is_required = true)
    (hmiss : ∀ a, answer = some a → a.value = "") :
    (validate regexMatch question answer).error ≠ "" := by
  have hmsg := orElseString_ne_empty question.validation_text "An answer is required."
    (by decide)
  have hjoin : ∀ rest : List (Option String),
      jsJoin "; " (some (orElseString question.validation_text "An answer is required.")
        :: rest) ≠ "" := by
    intro rest
    cases rest with
    | nil => simpa [jsJoin] using hmsg
    | cons y ys =>
      simp only [jsJoin, Option.getD_some]
      rw [String.append_assoc]
      exact append_ne_empty _ _ hmsg
  cases answer with
  | none =>
    simp only [validate, hreq, Bool.and_self, if_true, List.nil_append]
    exact hjoin []
  | some a =>
    have ha : a.value = "" := hmiss a rfl
    simp only [validate, hreq, ha, beq_self_eq_true, Bool.and_self, if_true, List.nil_append]
    split
    · exact hjoin _
    · exact hjoin []

/-- C3: `validate` on a required question with no answer returns the id of the
question and a non-empty error, which is the `validation_text` of the
question when that is set and non-empty and "An answer is required."
otherwise. -/
theorem validate_required_without_answer (regexMatch : String → String → Bool)
    (question : Question) (hreq : question.is_required = true) :
    (validate regexMatch question none).registration_question_id = question.id ∧
    (validate regexMatch question none).error ≠ "" ∧
    (∀ text, question.validation_text = some text → text ≠ "" →
      (validate regexMatch question none).error = text) ∧
    (question.validation_text = none ∨ question.validation_text = some "" →
      (validate regexMatch question none).error = "An answer is required.") := by
  refine ⟨rfl, ?_, ?_, ?_⟩
  · exact validate_error_of_required_missing regexMatch question none hreq (by simp)
  · intro text htext hne
    simp [validate, hreq, jsJoin, orElseString, htext, hne]
  · intro h
    rcases h with h | h <;> simp [validate, hreq, jsJoin, orElseString, h]

/-- Instance of C3: a required question with the message "Tell us your name"
and no answer. -/
theorem validate_required_without_answer_witness :
    (validate digitsMatch
      { id := 7, order := 1, is_required := true, validation_regex := none,
        validation_text := some "Tell us your name", depends_on_question_id := none,
        hide_for_dependent_value := none } none).error = "Tell us your name" :=
  (validate_required_without_answer digitsMatch
    { id := 7, order := 1, is_required := true, validation_regex := none,
      validation_text := some "Tell us your name", depends_on_question_id := none,
      hide_for_dependent_value := none } rfl).2.2.1 "Tell us your name" rfl (by decide)

/-! ## Regular-expression failures without a message -/

/-- When the pattern fails and the question has no `validation_text`, the
pushed entry prints as the empty string: unless the required check fired as
well, the error is empty. -/
theorem validate_regex_mismatch_without_text (regexMatch : String → String → Bool)
    (question : Question) (answer : Answer) (pattern : String)
    (hregex : question.validation_regex = some pattern) (hpattern : pattern ≠ "")
    (htext : question.validation_text = none)
    (hmismatch : regexMatch answer.value pattern = false)
    (hfired : question.is_required = false ∨ answer.value ≠ "") :
    (validate regexMatch question (some answer)).error = "" := by
  have hfirst : (question.is_required && (answer.value == "")) = false := by
    rcases hfired with h | h
    · simp [h]
    · simp [h]
  simp [validate, hfirst, hregex, hpattern, htext, hmismatch, jsJoin]

/-- C4, evaluated: the pattern `^[0-9]+$` fails on "abc" and the question has
no `validation_text`; `validate` returns the empty error, `isValidated`
returns true and `buttonSubmit` sends the answers. -/
theorem validate_regex_mismatch_without_text_passes :
    digitsMatch "abc" "^[0-9]+$" = false ∧
    validate digitsMatch phoneQuestion (some { registration_question_id := 3, value := "abc" })
      = { registration_question_id := 3, error := "" } ∧
    (isValidated digitsMatch phoneState).2 = true ∧
    (buttonSubmit digitsMatch phoneState).2.isSome = true := by
  decide

/-! ## Visibility -/

/-- C2, as stated, fails for a dependency on question `0`: the dependency is
set and the answer list holds no answer for question `0`, yet the filter keeps
the question. -/
theorem isVisible_dependency_zero :
    zeroDependent.depends_on_question_id = some 0 ∧
    findAnswer [] 0 = none ∧
    isVisible [] zeroDependent = true := by
  decide

/-- C2 (amended): the filter keeps a question whose `depends_on_question_id` is
unset or `0`; when it is set to another id, the question is kept if and only
if the answer list holds an answer for that id (the one `find` returns) whose
value differs from `hide_for_dependent_value`. With the hide value "no" the
question is dropped when the governing answer is absent or "no" and kept when
it is "yes". -/
theorem isVisible_iff (answers : List Answer) (question : Question) :
    (question.depends_on_question_id = none ∨ question.depends_on_question_id = some 0 →
      isVisible answers question = true) ∧
    (∀ dep, question.depends_on_question_id = some dep → dep ≠ 0 →
      (isVisible answers question = true ↔
        ∃ answer, findAnswer answers dep = some answer ∧
          some answer.value ≠ question.hide_for_dependent_value)) ∧
    (∀ dep, question.depends_on_question_id = some dep → dep ≠ 0 →
      question.hide_for_dependent_value = some "no" →
        (findAnswer answers dep = none → isVisible answers question = false) ∧
        (∀ answer, findAnswer answers dep = some answer →
          (answer.value = "no" → isVisible answers question = false) ∧
          (answer.value = "yes" → isVisible answers question = true))) := by
  refine ⟨?_, ?_, ?_⟩
  · intro h
    rcases h with h | h <;> simp [isVisible, h]
  · intro dep hdep hne
    cases hfind : findAnswer answers dep with
    | none => simp [isVisible, hdep, hne, hfind]
    | some answer => simp [isVisible, hdep, hne, hfind]
  · intro dep hdep hne hhide
    refine ⟨?_, ?_⟩
    · intro hfind
      simp [isVisible, hdep, hne, hfind]
    · intro answer hfind
      refine ⟨?_, ?_⟩
      · intro hv
        simp [isVisible, hdep, hne, hfind, hhide, hv]
      · intro hv
        simp [isVisible, hdep, hne, hfind, hhide, hv]

/-- Instance of C2 (amended): `visaQuestion` is kept when question `1` is
answered "yes". -/
theorem isVisible_iff_witness :
    isVisible [{ registration_question_id := 1, value := "yes" }] visaQuestion = true :=
  ((isVisible_iff [{ registration_question_id := 1, value := "yes" }] visaQuestion).2.2
      1 rfl (by decide) rfl).2 { registration_question_id := 1, value := "yes" } rfl
    |>.2 rfl

/-! ## Validation of the whole form -/

/-- Every loaded question gets a result, whether it is visible or not. -/
theorem validate_mem_validationErrorsOf (regexMatch : String → String → Bool) (s : State)
    (sec : Section) (question : Question) (hsec : sec ∈ s.questionSections)
    (hq : question ∈ sec.registration_questions) :
    validate regexMatch question (findAnswer s.answers question.id)
      ∈ validationErrorsOf regexMatch s := by
  unfold validationErrorsOf
  rw [List.mem_flatMap]
  exact ⟨sec, hsec, List.mem_map.mpr ⟨question, hq, rfl⟩⟩

/-- The results are those of all loaded questions, in order: there is no
visibility filter in `isValidated`. -/
theorem validationErrorsOf_ids (regexMatch : String → String → Bool) (s : State) :
    (validationErrorsOf regexMatch s).map ValidationResult.registration_question_id =
      (s.questionSections.flatMap Section.registration_questions).map Question.id := by
  unfold validationErrorsOf
  induction s.questionSections with
  | nil => rfl
  | cons sec rest ih =>
    simp only [List.flatMap_cons, List.map_append, ih, List.map_map]
    congr 1

/-- A required question without a non-empty answer makes `isValidated` return
false, whether it is visible or not. -/
theorem isValidated_false_of_required_missing (regexMatch : String → String → Bool)
    (s : State) (sec : Section) (question : Question) (hsec : sec ∈ s.questionSections)
    (hq : question ∈ sec.registration_questions) (hreq : question.is_required = true)
    (hmiss : ∀ a, findAnswer s.answers question.id = some a → a.value = "") :
    (isValidated regexMatch s).2 = false := by
  have hmem := validate_mem_validationErrorsOf regexMatch s sec question hsec hq
  have herr := validate_error_of_required_missing regexMatch question
    (findAnswer s.answers question.id) hreq hmiss
  have hany : (validationErrorsOf regexMatch s).any (fun v => v.error != "") = true :=
    List.any_eq_true.mpr ⟨_, hmem, bne_iff_ne.mpr herr⟩
  simp [isValidated, hany]

/-- C1, evaluated: `visaQuestion` is hidden by the answer "no" to question `1`
and has no answer; `isValidated` still stores a result for it, with the error
"An answer is required.", returns false, and `buttonSubmit` sends nothing. -/
theorem isValidated_counts_hidden_question :
    visibleQuestions visaState.answers
      { id := 1, order := 1, registration_questions := [travelQuestion, visaQuestion] }
      = [travelQuestion] ∧
    findAnswer visaState.answers 2 = none ∧
    (isValidated digitsMatch visaState).1.validationErrors =
      some [{ registration_question_id := 1, error := "" },
            { registration_question_id := 2, error := "An answer is required." }] ∧
    (isValidated digitsMatch visaState).2 = false ∧
    (buttonSubmit digitsMatch visaState).2 = none := by
  decide

/-! ## Submitting -/

/-- C6, as stated, fails while an earlier submission is still in flight:
`buttonSubmit` on an invalid form leaves `isSubmitting` true. -/
theorem buttonSubmit_invalid_keeps_isSubmitting :
    travelQuestion.is_required = true ∧
    findAnswer ({ unansweredState with isSubmitting := true }).answers travelQuestion.id
      = none ∧
    (buttonSubmit digitsMatch { unansweredState with isSubmitting := true }).1.isSubmitting
      = true ∧
    (buttonSubmit digitsMatch { unansweredState with isSubmitting := true }).2 = none := by
  decide

/-- C6 (amended): when some loaded question is required and has no answer, or
an answer with an empty value, `buttonSubmit` sets `hasValidated`, ends with
`isValid = false`, leaves `isSubmitting` as it was (false unless an earlier
submission is still in flight) and does not call `submitResponse`. -/
theorem buttonSubmit_invalid (regexMatch : String → String → Bool) (s : State)
    (sec : Section) (question : Question) (hsec : sec ∈ s.questionSections)
    (hq : question ∈ sec.registration_questions) (hreq : question.is_required = true)
    (hmiss : findAnswer s.answers question.id = none ∨
      ∃ a, findAnswer s.answers question.id = some a ∧ a.value = "") :
    (buttonSubmit regexMatch s).1.hasValidated = true ∧
    (buttonSubmit regexMatch s).1.isValid = false ∧
    (buttonSubmit regexMatch s).1.isSubmitting = s.isSubmitting ∧
    (s.isSubmitting = false → (buttonSubmit regexMatch s).1.isSubmitting = false) ∧
    (buttonSubmit regexMatch s).2 = none := by
  have hmiss2 : ∀ a, findAnswer ({ s with hasValidated := true }).answers question.id
      = some a → a.value = "" := by
    intro a ha
    rcases hmiss with h | ⟨b, hb, hv⟩
    · rw [h] at ha
      cases ha
    · rw [hb] at ha
      cases ha
      exact hv
  have hfalse := isValidated_false_of_required_missing regexMatch
    { s with hasValidated := true } sec question hsec hq hreq hmiss2
  have hstate : (isValidated regexMatch { s with hasValidated := true }).1.isValid = false := by
    have : (isValidated regexMatch { s with hasValidated := true }).1.isValid =
        (isValidated regexMatch { s with hasValidated := true }).2 := rfl
    rw [this, hfalse]
  have hrun : buttonSubmit regexMatch s =
      ((isValidated regexMatch { s with hasValidated := true }).1, none) := by
    simp only [buttonSubmit, hfalse, Bool.false_eq_true, if_false]
  rw [hrun]
  exact ⟨rfl, hstate, rfl, fun h => h, rfl⟩

/-- Instance of C6 (amended): the form whose required question is unanswered. -/
theorem buttonSubmit_invalid_witness :
    (buttonSubmit digitsMatch unansweredState).1.hasValidated = true ∧
    (buttonSubmit digitsMatch unansweredState).1.isValid = false ∧
    (buttonSubmit digitsMatch unansweredState).1.isSubmitting = false ∧
    (buttonSubmit digitsMatch unansweredState).2 = none :=
  have h := buttonSubmit_invalid digitsMatch unansweredState
    { id := 1, order := 1, registration_questions := [travelQuestion] } travelQuestion
    (by decide) (by decide) rfl (Or.inl rfl)
  ⟨h.1, h.2.1, h.2.2.2.1 rfl, h.2.2.2.2⟩

/-- C7, as stated, fails for the registration id `0`: the id is set, the form
passes validation, and `submitResponse` is called with `isUpdate = false`. -/
theorem buttonSubmit_isUpdate_zero :
    zeroIdState.registrationId = some 0 ∧
    (isValidated digitsMatch zeroIdState).2 = true ∧
    (buttonSubmit digitsMatch zeroIdState).2 =
      some { data := { registration_id := some 0, offer_id := some 5,
                       registration_form_id := some 9,
                       answers := [{ registration_question_id := 1, value := "x" }] },
             isUpdate := false } := by
  decide

/-- C7 (amended): on a form that passes validation `buttonSubmit` calls
`submitResponse` once, with the payload read from the state and with
`isUpdate = true` if and only if `registrationId` is set and is not `0`; without
a prior id `isUpdate` is false. -/
theorem buttonSubmit_isUpdate (regexMatch : String → String → Bool) (s : State)
    (hvalid : (isValidated regexMatch s).2 = true) :
    ∃ request, (buttonSubmit regexMatch s).2 = some request ∧
      request.data =
        { registration_id := s.registrationId, offer_id := s.offer.map Offer.id,
          registration_form_id := s.registrationFormId, answers := s.answers } ∧
      (request.isUpdate = true ↔ ∃ n, s.registrationId = some n ∧ n ≠ 0) ∧
      (s.registrationId = none → request.isUpdate = false) ∧
      (buttonSubmit regexMatch s).1.isSubmitting = true := by
  have hvalid2 : (isValidated regexMatch { s with hasValidated := true }).2 = true := hvalid
  have hrun : buttonSubmit regexMatch s =
      ({ (isValidated regexMatch { s with hasValidated := true }).1 with
          isSubmitting := true },
        some { data :=
                { registration_id := s.registrationId, offer_id := s.offer.map Offer.id,
                  registration_form_id := s.registrationFormId, answers := s.answers },
               isUpdate := truthyInt s.registrationId }) := by
    simp only [buttonSubmit, hvalid2, if_true]
    rfl
  rw [hrun]
  refine ⟨_, rfl, rfl, ?_, ?_, rfl⟩
  · show truthyInt s.registrationId = true ↔ _
    cases hreg : s.registrationId with
    | none => simp [truthyInt]
    | some n => simp [truthyInt]
  · intro hnone
    show truthyInt s.registrationId = false
    rw [hnone]
    rfl

/-- Instance of C7 (amended): a valid form with the registration id `12`. -/
theorem buttonSubmit_isUpdate_witness :
    ∃ request,
      (buttonSubmit digitsMatch { zeroIdState with registrationId := some 12 }).2
        = some request ∧ request.isUpdate = true := by
  obtain ⟨request, hreq, _, hupd, _⟩ :=
    buttonSubmit_isUpdate digitsMatch { zeroIdState with registrationId := some 12 }
      (by decide)
  exact ⟨request, hreq, hupd.mpr ⟨12, rfl, by decide⟩⟩

/-- C8: after the submit call settles, the state is Success (`formSuccess`,
not `formFailure`) if and only if the call resolved with an empty error and a
status of 200 or 201; for every other outcome, a rejected call included, it is
Failure (`formFailure`, not `formSuccess`); either way `isSubmitting` is false
and the answer list is the one before. -/
theorem submitSettled_outcome (s : State) (outcome : Settled SubmitResponse) :
    ((submitSettled s outcome).formSuccess = true ∧
        (submitSettled s outcome).formFailure = false ↔
      ∃ response form, outcome = .resolved response ∧ response.error = "" ∧
        response.form = some form ∧ (form.status = some 200 ∨ form.status = some 201)) ∧
    ((submitSettled s outcome).formFailure = true ∧
        (submitSettled s outcome).formSuccess = false ↔
      ¬ ∃ response form, outcome = .resolved response ∧ response.error = "" ∧
        response.form = some form ∧ (form.status = some 200 ∨ form.status = some 201)) ∧
    (submitSettled s outcome).isSubmitting = false ∧
    (submitSettled s outcome).answers = s.answers := by
  cases outcome with
  | rejected => simp [submitSettled, submitCaught]
  | resolved response =>
    obtain ⟨error, form⟩ := response
    by_cases herr : error = ""
    · cases form with
      | none => simp [submitSettled, submitCaught, herr]
      | some form =>
        by_cases hstatus : form.status = some 201 ∨ form.status = some 200
        · have hcond : (form.status == some 201 || form.status == some 200) = true := by
            rcases hstatus with h | h <;> simp [h]
          simp [submitSettled, herr, hcond, hstatus.symm]
        · have h1 : form.status ≠ some 201 := fun h => hstatus (Or.inl h)
          have h2 : form.status ≠ some 200 := fun h => hstatus (Or.inr h)
          simp [submitSettled, herr, h1, h2]
    · simp [submitSettled, herr]

/-! ## Answer store: last write wins -/

theorem findAnswer_some (answers : List Answer) (id : Int) (a : Answer)
    (h : findAnswer answers id = some a) :
    a.registration_question_id = id ∧ a ∈ answers := by
  unfold findAnswer at h
  exact ⟨by simpa using List.find?_some h, List.mem_of_find?_eq_some h⟩

theorem findAnswer_none (answers : List Answer) (id : Int)
    (h : findAnswer answers id = none) :
    id ∉ answers.map Answer.registration_question_id := by
  unfold findAnswer at h
  rw [List.find?_eq_none] at h
  intro hmem
  obtain ⟨a, ha, hid⟩ := List.mem_map.mp hmem
  exact h a ha (by simp [hid])

/-- Replacing the entries of one id by an answer of that id keeps the ids. -/
theorem map_replace_ids (answers : List Answer) (id : Int) (b : Answer)
    (hb : b.registration_question_id = id) :
    (answers.map fun item => if item.registration_question_id == id then b else item).map
      Answer.registration_question_id = answers.map Answer.registration_question_id := by
  induction answers with
  | nil => rfl
  | cons x xs ih =>
    simp only [List.map_cons, ih]
    congr 1
    by_cases hx : x.registration_question_id = id
    · simp [hx, hb]
    · simp [hx]

theorem filter_replace_of_not_mem (answers : List Answer) (id : Int) (b : Answer)
    (h : id ∉ answers.map Answer.registration_question_id) :
    (answers.map fun item => if item.registration_question_id == id then b else item).filter
      (fun a => a.registration_question_id == id) = [] := by
  induction answers with
  | nil => rfl
  | cons x xs ih =>
    simp only [List.map_cons, List.mem_cons, not_or] at h
    have hx : x.registration_question_id ≠ id := fun e => h.1 e.symm
    rw [List.map_cons, if_neg (by simpa using hx),
      List.filter_cons_of_neg (by simpa using hx)]
    exact ih h.2

theorem filter_replace_of_nodup (answers : List Answer) (id : Int) (b : Answer)
    (hb : b.registration_question_id = id)
    (hnodup : (answers.map Answer.registration_question_id).Nodup)
    (hmem : id ∈ answers.map Answer.registration_question_id) :
    (answers.map fun item => if item.registration_question_id == id then b else item).filter
      (fun a => a.registration_question_id == id) = [b] := by
  induction answers with
  | nil => simp at hmem
  | cons x xs ih =>
    simp only [List.map_cons, List.nodup_cons] at hnodup
    by_cases hx : x.registration_question_id = id
    · have hrest := filter_replace_of_not_mem xs id b (hx ▸ hnodup.1)
      rw [List.map_cons, if_pos (by simpa using hx),
        List.filter_cons_of_pos (by simpa using hb), hrest]
    · have hmem2 : id ∈ xs.map Answer.registration_question_id := by
        simp only [List.map_cons, List.mem_cons] at hmem
        rcases hmem with h | h
        · exact absurd h.symm hx
        · exact h
      rw [List.map_cons, if_neg (by simpa using hx),
        List.filter_cons_of_neg (by simpa using hx)]
      exact ih hnodup.2 hmem2

/-- After `upsertAnswer` the ids of the list are still pairwise distinct. -/
theorem upsertAnswer_nodup (answers : List Answer) (id : Int) (value : InputValue)
    (hnodup : (answers.map Answer.registration_question_id).Nodup) :
    ((upsertAnswer answers id value).map Answer.registration_question_id).Nodup := by
  unfold upsertAnswer
  cases hfind : findAnswer answers id with
  | none =>
    have hnot := findAnswer_none answers id hfind
    simp only [List.map_append, List.map_cons, List.map_nil]
    rw [List.nodup_append]
    refine ⟨hnodup, List.nodup_singleton _, ?_⟩
    intro a ha hb
    simp only [List.mem_singleton] at hb
    exact hnot (hb ▸ ha)
  | some a =>
    have hid := (findAnswer_some answers id a hfind).1
    simp only
    rw [map_replace_ids answers id
      { registration_question_id := a.registration_question_id, value := jsToString value }
      hid]
    exact hnodup

/-- After `upsertAnswer` exactly one answer has the id, with the new value. -/
theorem upsertAnswer_filter (answers : List Answer) (id : Int) (value : InputValue)
    (hnodup : (answers.map Answer.registration_question_id).Nodup) :
    (upsertAnswer answers id value).filter (fun a => a.registration_question_id == id) =
      [{ registration_question_id := id, value := jsToString value }] := by
  unfold upsertAnswer
  cases hfind : findAnswer answers id with
  | none =>
    have hnot := findAnswer_none answers id hfind
    have hnil : answers.filter (fun a => a.registration_question_id == id) = [] := by
      rw [List.filter_eq_nil_iff]
      intro a ha hp
      exact hnot (List.mem_map.mpr ⟨a, ha, by simpa using hp⟩)
    simp [List.filter_append, hnil]
  | some a =>
    obtain ⟨hid, hmem⟩ := findAnswer_some answers id a hfind
    simp only
    rw [filter_replace_of_nodup answers id
      { registration_question_id := a.registration_question_id, value := jsToString value }
      hid hnodup (List.mem_map.mpr ⟨a, hmem, hid⟩)]
    rw [hid]

theorem isValidated_answers (regexMatch : String → String → Bool) (s : State) :
    (isValidated regexMatch s).1.answers = s.answers := rfl

theorem onChange_answers (regexMatch : String → String → Bool) (s : State) (id : Int)
    (value : InputValue) :
    (onChange regexMatch s id value).answers = upsertAnswer s.answers id value := by
  unfold onChange
  simp only
  split <;> rfl

/-- C5: on an answer list with at most one answer per question id,
`onChange(id, v1)` followed by `onChange(id, v2)` leaves exactly one answer with
that id, its value is the string form of `v2` (and it is the answer `find`
returns), and the list still has at most one answer per question id. -/
theorem onChange_last_write_wins (regexMatch : String → String → Bool) (s : State)
    (id : Int) (v1 v2 : InputValue)
    (hnodup : (s.answers.map Answer.registration_question_id).Nodup) :
    ((onChange regexMatch (onChange regexMatch s id v1) id v2).answers.filter
        fun a => a.registration_question_id == id) =
      [{ registration_question_id := id, value := jsToString v2 }] ∧
    findAnswer (onChange regexMatch (onChange regexMatch s id v1) id v2).answers id =
      some { registration_question_id := id, value := jsToString v2 } ∧
    ((onChange regexMatch (onChange regexMatch s id v1) id v2).answers.map
      Answer.registration_question_id).Nodup := by
  have h1 : ((onChange regexMatch s id v1).answers.map
      Answer.registration_question_id).Nodup := by
    rw [onChange_answers]
    exact upsertAnswer_nodup _ _ _ hnodup
  have hfilter := upsertAnswer_filter (onChange regexMatch s id v1).answers id v2 h1
  rw [onChange_answers regexMatch (onChange regexMatch s id v1) id v2]
  refine ⟨hfilter, ?_, upsertAnswer_nodup _ _ _ h1⟩
  unfold findAnswer
  rw [← List.filter_head?, hfilter]
  rfl

/-- Instance of C5: a checkbox ticked, then cleared, in a form that already
holds another answer. -/
theorem onChange_last_write_wins_witness :
    (onChange digitsMatch (onChange digitsMatch visaState 2 (.num 1)) 2 (.num 0)).answers =
      [{ registration_question_id := 1, value := "no" },
       { registration_question_id := 2, value := "0" }] ∧
    ((onChange digitsMatch (onChange digitsMatch visaState 2 (.num 1)) 2 (.num 0)).answers.filter
        fun a => a.registration_question_id == 2) =
      [{ registration_question_id := 2, value := jsToString (.num 0) }] :=
  ⟨by decide,
   (onChange_last_write_wins digitsMatch visaState 2 (.num 1) (.num 0) (by decide)).1⟩

/-! ## Sorting -/

theorem sortByKey_perm {α : Type} (key : α → Int) (l : List α) :
    (sortByKey key l).Perm l :=
  List.perm_insertionSort _ l

theorem sortByKey_sorted {α : Type} (key : α → Int) (l : List α) :
    (sortByKey key l).Pairwise (fun a b => key a ≤ key b) := by
  haveI : IsTotal α (fun a b => key a ≤ key b) := ⟨fun a b => le_total (key a) (key b)⟩
  haveI : IsTrans α (fun a b => key a ≤ key b) := ⟨fun _ _ _ hab hbc => le_trans hab hbc⟩
  exact List.sorted_insertionSort (fun a b => key a ≤ key b) l

/-- Stability: the elements of one key come out in the order they went in. -/
theorem sortByKey_stable {α : Type} (key : α → Int) (l : List α) (k : Int) :
    (sortByKey key l).filter (fun a => key a == k) = l.filter (fun a => key a == k) := by
  have hpair : (l.filter (fun a => key a == k)).Pairwise (fun a b => key a ≤ key b) := by
    rw [List.pairwise_iff_forall_sublist]
    intro a b hab
    have ha : a ∈ l.filter (fun a => key a == k) := hab.subset (by simp)
    have hb : b ∈ l.filter (fun a => key a == k) := hab.subset (by simp)
    simp only [List.mem_filter, beq_iff_eq] at ha hb
    rw [ha.2, hb.2]
  have hsub : List.Sublist (l.filter (fun a => key a == k)) (sortByKey key l) :=
    List.sublist_insertionSort hpair (List.filter_sublist l)
  have hsub2 := hsub.filter (fun a => key a == k)
  rw [List.filter_filter] at hsub2
  simp only [Bool.and_self] at hsub2
  have hlen := ((sortByKey_perm key l).filter (fun a => key a == k)).length_eq
  exact (hsub2.eq_of_length hlen.symm).symm

/-! ## Loading the form -/

theorem responseSettled_questionSections (s : State) (outcome : Settled ResponseResult) :
    (responseSettled s outcome).questionSections = s.questionSections := by
  unfold responseSettled
  split
  · split
    · split <;> rfl
    · rfl
  · rfl

/-- Sections stored by a load whose offer fetch and form fetch both succeed. -/
theorem componentDidMount_questionSections (s : State) (o : Offer) (result : FormResult)
    (form : RegistrationForm) (response : Settled ResponseResult)
    (herror : result.error = "") (hform : result.form = some form)
    (hsections : form.registration_sections.length > 0) :
    (componentDidMount s (.resolved { error := "", offer := some o }) (.resolved result)
        response).1.questionSections =
      sortByKey Section.order
        (form.registration_sections.filter fun sec => sec.registration_questions.length > 0) := by
  simp only [componentDidMount, formSettled, herror, hform, hsections, beq_self_eq_true,
    if_true]
  rw [responseSettled_questionSections]

/-- C10: after a successful form fetch the stored `questionSections` holds
exactly the sections of the response that have at least one question, each as
often as the response holds it, in ascending `order`, and the sections of one
`order` stand in the order the response gave them. -/
theorem componentDidMount_sections_sorted (s : State) (o : Offer) (result : FormResult)
    (form : RegistrationForm) (response : Settled ResponseResult)
    (herror : result.error = "") (hform : result.form = some form)
    (hsections : form.registration_sections.length > 0) :
    ((componentDidMount s (.resolved { error := "", offer := some o }) (.resolved result)
        response).1.questionSections.Perm
      (form.registration_sections.filter fun sec => sec.registration_questions ≠ [])) ∧
    ((componentDidMount s (.resolved { error := "", offer := some o }) (.resolved result)
        response).1.questionSections.Pairwise fun a b => a.order ≤ b.order) ∧
    (∀ k : Int,
      ((componentDidMount s (.resolved { error := "", offer := some o }) (.resolved result)
        response).1.questionSections.filter fun sec => sec.order == k) =
      ((form.registration_sections.filter fun sec => sec.registration_questions ≠ []).filter
        fun sec => sec.order == k)) := by
  have hfilter : (form.registration_sections.filter fun sec => sec.registration_questions ≠ [])
      = form.registration_sections.filter fun sec => sec.registration_questions.length > 0 := by
    apply List.filter_congr
    intro sec _
    cases sec.registration_questions <;> simp
  rw [componentDidMount_questionSections s o result form response herror hform hsections,
    hfilter]
  exact ⟨sortByKey_perm _ _, sortByKey_sorted _ _, fun k => sortByKey_stable _ _ k⟩

/-- Instance of C10: the section without questions is dropped, the two
sections of order 1 come first, in the order of the response. -/
theorem componentDidMount_sections_sorted_witness :
    (componentDidMount initialState (.resolved { error := "", offer := some { id := 5 } })
        (.resolved { error := "", form := some sampleForm, statusCode := some 200 })
        .rejected).1.questionSections =
      [{ id := 12, order := 1, registration_questions := [visaQuestion] },
       { id := 13, order := 1, registration_questions := [phoneQuestion] },
       { id := 10, order := 2, registration_questions := [travelQuestion] }] ∧
    ((componentDidMount initialState (.resolved { error := "", offer := some { id := 5 } })
        (.resolved { error := "", form := some sampleForm, statusCode := some 200 })
        .rejected).1.questionSections.Pairwise fun a b => a.order ≤ b.order) :=
  ⟨by decide,
   (componentDidMount_sections_sorted initialState { id := 5 }
      { error := "", form := some sampleForm, statusCode := some 200 } sampleForm .rejected
      rfl rfl (by decide)).2.1⟩

/-- No branch taken after a failed form fetch (the promise rejected, or it
resolved with an error, without a form, or with a form without sections)
writes `isLoading`: the load ends with `isLoading = true` and `render` shows
the loading indicator. -/
theorem componentDidMount_form_failure (s : State) (o : Offer)
    (form : Settled FormResult) (response : Settled ResponseResult)
    (hfail : form = .rejected ∨
      ∃ result, form = .resolved result ∧
        (result.error ≠ "" ∨ result.form = none ∨
          ∃ f, result.form = some f ∧ f.registration_sections = [])) :
    (componentDidMount s (.resolved { error := "", offer := some o }) form response).1.isLoading
      = true ∧
    render (componentDidMount s (.resolved { error := "", offer := some o }) form response).1
      = .loading := by
  have hloading : (componentDidMount s (.resolved { error := "", offer := some o }) form
      response).1.isLoading = true := by
    rcases hfail with h | ⟨result, h, hcase⟩
    · subst h
      rfl
    · subst h
      by_cases herr : result.error = ""
      · rcases hcase with hc | hc | ⟨f, hf, hempty⟩
        · exact absurd herr hc
        · simp [componentDidMount, formSettled, herr, hc]
        · simp [componentDidMount, formSettled, herr, hf, hempty]
      · simp [componentDidMount, formSettled, herr]
  exact ⟨hloading, by simp [render, hloading]⟩

/-- C9, evaluated: the offer fetch succeeds and the form fetch answers with the
error "Not found" and the status 404. The load ends with `isLoading = true`,
nothing else changed, and `render` shows the loading indicator, not the "No
registration form available" message. -/
theorem componentDidMount_form_failure_stays_loading :
    (componentDidMount initialState (.resolved { error := "", offer := some { id := 5 } })
        (.resolved { error := "Not found", form := none, statusCode := some 404 })
        (.resolved { error := "", form := some { answers := [], registration_id := none } }))
      = ({ initialState with offer := some { id := 5 } }, false) ∧
    ({ initialState with offer := some { id := 5 } } : State).isLoading = true ∧
    render { initialState with offer := some { id := 5 } } = .loading ∧
    render { initialState with offer := some { id := 5 }, isLoading := false }
      = .page false false false .noFormAvailable := by
  decide

end Registration
